import Mathlib

/-!
# File system calls of dsmed2/oslight

A shallow embedding of `kern/syscall/file_syscalls.c` (`sys_open`, `sys_read`,
`sys_write`, `sys_close`, `sys_meld`) over an explicit kernel state, followed by
theorems about the behaviour of these functions.

The functions the system calls rely on (`openfile_open`, `openfile_decref`,
`filetable_place`, `filetable_placeat`, `filetable_get`, `filetable_put`,
`filetable_okfd`, `copyinstr`, the locks and the vnode operations) live in files
that are not part of the sources; they are modelled from the specification.
-/

namespace OsLight

/-! ## Data model -/

/-- A byte of file data, represented by the character with that code. -/
abbrev Byte := Char

/-- A path name; the flat name space also identifies the vnode behind a path. -/
abbrev Path := String

/-- The error codes of `kern/errno.h` used by the file system calls; `EIOERR` stands
for the I/O error code a failing vnode operation reports. -/
inductive Errno where
  | EINVAL
  | EFAULT
  | ENAMETOOLONG
  | EMFILE
  | EACCES
  | EBADF
  | ENOENT
  | EEXIST
  | EIOERR
  deriving DecidableEq

/-- The `int` a system call returns: `0` or an error code. -/
inductive Status where
  | ok
  | err (e : Errno)
  deriving DecidableEq

/-- Modelled from the spec: the flag constants of `kern/fcntl.h`, a header that is
not among the sources. The spec names the flags; the values are the header's. -/
def O_RDONLY : Nat := 0

/-- Modelled from the spec: see `O_RDONLY`. -/
def O_WRONLY : Nat := 1

/-- Modelled from the spec: see `O_RDONLY`. -/
def O_RDWR : Nat := 2

/-- Modelled from the spec: see `O_RDONLY`; the mask of the access-mode bits. -/
def O_ACCMODE : Nat := 3

/-- Modelled from the spec: see `O_RDONLY`. -/
def O_CREAT : Nat := 4

/-- Modelled from the spec: see `O_RDONLY`. -/
def O_EXCL : Nat := 8

/-- Modelled from the spec: see `O_RDONLY`. -/
def O_TRUNC : Nat := 16

/-- Modelled from the spec: see `O_RDONLY`. -/
def O_APPEND : Nat := 32

/-- Modelled from the spec: see `O_RDONLY`. -/
def O_NOCTTY : Nat := 64

/-- Modelled from the spec: the bound of `kern/limits.h` on the length of a path
("a fixed maximum length"); the header is not among the sources. -/
def PATH_MAX : Nat := 1024

/-- A file of the underlying file system: its bytes, and whether the device
reports an error on every read and write of it. -/
structure VFile where
  data : List Byte
  ioerr : Bool
  deriving DecidableEq

/-- The `struct openfile`: vnode, access mode, seek offset, reference count, and
whether the offset lock is currently held. An object whose reference count is 0
has been destroyed. -/
structure OpenFile where
  of_vnode : Path
  of_accmode : Nat
  of_offset : Nat
  of_refcount : Nat
  of_offsetlock : Bool
  deriving DecidableEq, Inhabited

/-- The kernel state seen by the file system calls: the file system, the heap of
openfile objects (a `struct openfile *` is an index into it), the slots of
`curproc->p_filetable` and the number of `filetable_get` and `filetable_put`
calls made so far. -/
structure Kernel where
  files : List (Path × VFile)
  ofs : List OpenFile
  table : List (Option Nat)
  gets : Nat
  puts : Nat
  deriving DecidableEq

/-- What a system call does: it returns a status, the value stored in `*retval`
(if any), the bytes copied out to the user buffer and the new kernel state; or a
`KASSERT` fails and the kernel panics; or it blocks for ever on a lock that is
already held; or the loop model runs out of fuel. -/
inductive Outcome where
  | ret (status : Status) (retval : Option Int) (ubuf : List Byte) (k : Kernel)
  | kassert
  | deadlock
  | outOfFuel
  deriving DecidableEq

/-- A user-space string argument: a NUL-terminated string at a valid address, or
an invalid address. -/
inductive UserStr where
  | str (s : String)
  | bad
  deriving DecidableEq

/-- The 4-byte scratch buffers `buf1`, `buf2` of `sys_meld`. -/
structure Buf4 where
  b0 : Byte
  b1 : Byte
  b2 : Byte
  b3 : Byte
  deriving DecidableEq

/-- The four bytes of a scratch buffer, in order. -/
def Buf4.toList (b : Buf4) : List Byte := [b.b0, b.b1, b.b2, b.b3]

/-- A read of at most 4 bytes into a scratch buffer overwrites the first bytes of
the buffer and leaves the others as they were. -/
def Buf4.fill (b : Buf4) : List Byte → Buf4
  | [] => b
  | [x0] => { b with b0 := x0 }
  | [x0, x1] => { b with b0 := x0, b1 := x1 }
  | [x0, x1, x2] => { b with b0 := x0, b1 := x1, b2 := x2 }
  | x0 :: x1 :: x2 :: x3 :: _ => ⟨x0, x1, x2, x3⟩

/-- Conversion of a wider integer to a C `int` (32 bits, two's complement): a
value that fits is unchanged, any other value wraps modulo 2^32. -/
def toInt32 : Int → Int
  | .ofNat n => if n < 2 ^ 31 then .ofNat n else (Int.ofNat n + 2 ^ 31) % 2 ^ 32 - 2 ^ 31
  | .negSucc n => if n < 2 ^ 31 then .negSucc n else (Int.negSucc n + 2 ^ 31) % 2 ^ 32 - 2 ^ 31

/-! ## The collaborators, modelled from the specification -/

/-- Modelled from the spec: `copyinstr`, which "copies a bounded, NUL-terminated
string of at most a fixed maximum length from caller-space into a kernel-owned
buffer, failing distinctly if the string is unterminated within that bound or the
source address is invalid". -/
def copyinstr (u : UserStr) (len : Nat) : Except Errno Path :=
  match u with
  | .bad => .error .EFAULT
  | .str s => if s.length < len then .ok s else .error .ENAMETOOLONG

/-- The file at a path, if there is one. -/
def fsLookup : List (Path × VFile) → Path → Option VFile
  | [], _ => none
  | (q, v) :: rest, p => if q = p then some v else fsLookup rest p

/-- Replace the file at a path, or add it when the path is new. -/
def fsStore : List (Path × VFile) → Path → VFile → List (Path × VFile)
  | [], p, v => [(p, v)]
  | (q, w) :: rest, p, v => if q = p then (p, v) :: rest else (q, w) :: fsStore rest p v

/-- Whether a bit of the open flags is set. -/
def hasFlag (flags bit : Nat) : Bool := flags &&& bit != 0

/-- Modelled from the spec: `vnode_open(path, flags, mode)`, "honoring O_RDONLY,
O_WRONLY, O_RDWR, O_CREAT, O_EXCL, O_TRUNC, O_APPEND; fails with distinguishable
errors for does not exist, already exists (when O_EXCL given)". -/
def vfs_open (fs : List (Path × VFile)) (path : Path) (flags : Nat) :
    Except Errno (List (Path × VFile)) :=
  match fsLookup fs path with
  | some v =>
    if hasFlag flags O_CREAT && hasFlag flags O_EXCL then .error .EEXIST
    else if hasFlag flags O_TRUNC then .ok (fsStore fs path { v with data := [] })
    else .ok fs
  | none =>
    if hasFlag flags O_CREAT then .ok (fsStore fs path ⟨[], false⟩)
    else .error .ENOENT

/-- Modelled from the spec: `openfile_open`, vnode open followed by
`create(vnode, access_mode)`, which "initializes offset to 0, refcount to 1"; the
access mode is "fixed at creation time from the open flags". The new object is
allocated at a fresh address. -/
def openfile_open (k : Kernel) (path : Path) (flags : Nat) (_mode : Nat) :
    Except Errno (Nat × Kernel) :=
  match vfs_open k.files path flags with
  | .error e => .error e
  | .ok fs =>
    .ok (k.ofs.length,
      { k with files := fs, ofs := k.ofs ++ [⟨path, flags &&& O_ACCMODE, 0, 1, false⟩] })

/-- The openfile object behind a pointer. -/
def ofGet (k : Kernel) (p : Nat) : OpenFile := k.ofs.getD p default

/-- Store to the openfile object behind a pointer. -/
def ofSet (k : Kernel) (p : Nat) (o : OpenFile) : Kernel := { k with ofs := k.ofs.set p o }

/-- Modelled from the spec: `decrement_refcount`, which "decreases refcount by 1";
the object is destroyed when the count reaches 0. -/
def openfile_decref (k : Kernel) (p : Nat) : Kernel :=
  ofSet k p { ofGet k p with of_refcount := (ofGet k p).of_refcount - 1 }

/-- Modelled from the spec: `lock_acquire` on the offset lock. "No two threads may
hold the same OpenFile's offset lock simultaneously": acquiring a lock that is
already held never returns. -/
def lock_acquire (k : Kernel) (p : Nat) : Option Kernel :=
  if (ofGet k p).of_offsetlock then none
  else some (ofSet k p { ofGet k p with of_offsetlock := true })

/-- Modelled from the spec: `lock_release` on the offset lock. -/
def lock_release (k : Kernel) (p : Nat) : Kernel :=
  ofSet k p { ofGet k p with of_offsetlock := false }

/-- The index of the lowest-numbered empty slot. -/
def firstFree : List (Option Nat) → Option Nat
  | [] => none
  | none :: _ => some 0
  | some _ :: rest => (firstFree rest).map (· + 1)

/-- Modelled from the spec: `place(table, OpenFile) -> fd`, which "finds the
lowest-numbered empty slot, stores the OpenFile reference (no refcount bump),
returns that number. Fails with TooManyOpenFiles if no slot is free". -/
def filetable_place (k : Kernel) (file : Nat) : Except Errno (Int × Kernel) :=
  match firstFree k.table with
  | none => .error .EMFILE
  | some fd => .ok ((fd : Int), { k with table := k.table.set fd (some file) })

/-- The occupant of the slot of a descriptor number; none for an empty slot and
for a number outside the table. -/
def slotAt (t : List (Option Nat)) (fd : Int) : Option Nat :=
  if 0 ≤ fd then (t.getD fd.toNat none) else none

/-- Modelled from the spec: `is_valid(table, fd) -> bool`, the "range/occupancy
check". With `occ = false` it checks the range only, with `occ = true` it also
requires the slot to be occupied; the spec's words allow both readings. -/
def filetable_okfd (occ : Bool) (t : List (Option Nat)) (fd : Int) : Bool :=
  decide (0 ≤ fd) && decide (fd < t.length) && (!occ || (slotAt t fd).isSome)

/-- Modelled from the spec: `place_at(table, OpenFile_or_none, fd)`, which
"replaces the slot's contents and returns whatever previously occupied the slot
(which may be empty)". -/
def filetable_placeat (k : Kernel) (file : Option Nat) (fd : Int) : Option Nat × Kernel :=
  (slotAt k.table fd,
    if 0 ≤ fd then { k with table := k.table.set fd.toNat file } else k)

/-- Modelled from the spec: `get(table, fd)`, which "returns a usable reference to
the slot's occupant; fails with BadFileDescriptor if fd is out of range or the
slot is empty". The call is counted. -/
def filetable_get (k : Kernel) (fd : Int) : Except Errno (Nat × Kernel) :=
  match slotAt k.table fd with
  | none => .error .EBADF
  | some file => .ok (file, { k with gets := k.gets + 1 })

/-- Modelled from the spec: `put(table, fd, OpenFile)`, which "signals that a
previously obtained reference from get is no longer in use". The call is
counted. -/
def filetable_put (k : Kernel) (_fd : Int) (_file : Nat) : Kernel :=
  { k with puts := k.puts + 1 }

/-- Modelled from the spec: `vnode_read(vnode, offset, length) -> bytes`; at the
end of the file fewer bytes than asked for are transferred. -/
def VOP_READ (fs : List (Path × VFile)) (vn : Path) (off len : Nat) :
    Except Errno (List Byte) :=
  match fsLookup fs vn with
  | none => .error .EIOERR
  | some v => if v.ioerr then .error .EIOERR else .ok ((v.data.drop off).take len)

/-- The bytes of a file after `data` has been written at offset `off`; a gap
between the old end of the file and `off` reads as zero bytes. -/
def writeAt (content : List Byte) (off : Nat) (data : List Byte) : List Byte :=
  content.take off ++ List.replicate (off - content.length) (Char.ofNat 0) ++ data
    ++ content.drop (off + data.length)

/-- Modelled from the spec: `vnode_write(vnode, offset, bytes) -> count_written`;
all the bytes are written. -/
def VOP_WRITE (fs : List (Path × VFile)) (vn : Path) (off : Nat) (data : List Byte) :
    Except Errno (List (Path × VFile)) :=
  match fsLookup fs vn with
  | none => .error .EIOERR
  | some v =>
    if v.ioerr then .error .EIOERR
    else .ok (fsStore fs vn { v with data := writeAt v.data off data })

/-- Modelled from the spec: `vnode_stat(vnode) -> size`. -/
def VOP_STAT (fs : List (Path × VFile)) (vn : Path) : Nat :=
  match fsLookup fs vn with
  | none => 0
  | some v => v.data.length

/-- The assignment `file->of_offset = uio.uio_offset`. -/
def setOffset (k : Kernel) (p : Nat) (off : Nat) : Kernel :=
  ofSet k p { ofGet k p with of_offset := off }

/-! ## The system calls of `file_syscalls.c` -/

/-- The constant `allflags` of `sys_open`. -/
def allflags : Nat := O_ACCMODE ||| O_CREAT ||| O_EXCL ||| O_TRUNC ||| O_APPEND ||| O_NOCTTY

/-- The function `sys_open`. Every failure after the flag check returns at once:
`EFAULT` for a failed path copy and for a failed open, `EMFILE` for a full table. -/
def sys_open (k : Kernel) (upath : UserStr) (flags : Nat) (mode : Nat) : Outcome :=
  if flags = allflags then .ret (.err .EINVAL) none [] k
  else
    match copyinstr upath PATH_MAX with
    | .error _ => .ret (.err .EFAULT) none [] k
    | .ok kpath =>
      match openfile_open k kpath flags mode with
      | .error _ => .ret (.err .EFAULT) none [] k
      | .ok (file, k1) =>
        match filetable_place k1 file with
        | .error _ => .ret (.err .EMFILE) none [] k1
        | .ok (fd, k2) => .ret .ok (some fd) [] k2

/-- The function `sys_read`. -/
def sys_read (k : Kernel) (fd : Int) (size : Nat) : Outcome :=
  match filetable_get k fd with
  | .error e => .ret (.err e) none [] k
  | .ok (file, k1) =>
    match lock_acquire k1 file with
    | none => .deadlock
    | some k2 =>
      if (ofGet k2 file).of_accmode = O_WRONLY then
        .ret (.err .EACCES) none [] (lock_release k2 file)
      else
        match VOP_READ k2.files (ofGet k2 file).of_vnode (ofGet k2 file).of_offset size with
        | .error e => .ret (.err e) none [] k2
        | .ok data =>
          let uio_offset := (ofGet k2 file).of_offset + data.length
          let uio_resid := size - data.length
          let k3 := setOffset k2 file uio_offset
          let k4 := lock_release k3 file
          let k5 := filetable_put k4 fd file
          .ret .ok (some (toInt32 ((size : Int) - (uio_resid : Int)))) data k5

/-- The function `sys_write`; `data` are the `size` bytes at `buf`. -/
def sys_write (k : Kernel) (fd : Int) (data : List Byte) : Outcome :=
  match filetable_get k fd with
  | .error e => .ret (.err e) none [] k
  | .ok (file, k1) =>
    match lock_acquire k1 file with
    | none => .deadlock
    | some k2 =>
      if (ofGet k2 file).of_accmode = O_RDONLY then
        .ret (.err .EBADF) none [] (lock_release k2 file)
      else
        match VOP_WRITE k2.files (ofGet k2 file).of_vnode (ofGet k2 file).of_offset data with
        | .error e => .ret (.err e) none [] k2
        | .ok fs =>
          let uio_offset := (ofGet k2 file).of_offset + data.length
          let uio_resid : Nat := 0
          let k3 := setOffset { k2 with files := fs } file uio_offset
          let k4 := lock_release k3 file
          let k5 := filetable_put k4 fd file
          .ret .ok (some (toInt32 ((data.length : Int) - (uio_resid : Int)))) [] k5

/-- The function `sys_close`: the `KASSERT` on `filetable_okfd`, then
`filetable_placeat` with `NULL`; `ENOENT` when the slot was empty, otherwise
`openfile_decref`. -/
def sys_close (occ : Bool) (k : Kernel) (fd : Int) : Outcome :=
  if filetable_okfd occ k.table fd then
    match filetable_placeat k none fd with
    | (none, k1) => .ret (.err .ENOENT) none [] k1
    | (some file, k1) => .ret .ok none [] (openfile_decref k1 file)
  else .kassert

/-- One iteration of the `while` loop of `sys_meld`: a read of 4 bytes from file 1
into `buf1`, a read of 4 bytes from file 2 into `buf2`, then a write of the 4
bytes of `buf1` and a write of the 4 bytes of `buf2` to file 3, each under the
offset lock of its file. A failing vnode operation returns at once. -/
def meld_body (k : Kernel) (file1 file2 file3 : Nat) (buf1 buf2 : Buf4) :
    Except Outcome (Kernel × Buf4 × Buf4) :=
  match lock_acquire k file1 with
  | none => .error .deadlock
  | some ka =>
    match VOP_READ ka.files (ofGet ka file1).of_vnode (ofGet ka file1).of_offset 4 with
    | .error e => .error (.ret (.err e) none [] ka)
    | .ok r1 =>
      let kb := lock_release (setOffset ka file1 ((ofGet ka file1).of_offset + r1.length)) file1
      match lock_acquire kb file2 with
      | none => .error .deadlock
      | some kc =>
        match VOP_READ kc.files (ofGet kc file2).of_vnode (ofGet kc file2).of_offset 4 with
        | .error e => .error (.ret (.err e) none [] kc)
        | .ok r2 =>
          let kd := lock_release
            (setOffset kc file2 ((ofGet kc file2).of_offset + r2.length)) file2
          match lock_acquire kd file3 with
          | none => .error .deadlock
          | some ke =>
            match VOP_WRITE ke.files (ofGet ke file3).of_vnode (ofGet ke file3).of_offset
                (buf1.fill r1).toList with
            | .error e => .error (.ret (.err e) none [] ke)
            | .ok fs1 =>
              let kf := lock_release
                (setOffset { ke with files := fs1 } file3 ((ofGet ke file3).of_offset + 4)) file3
              match lock_acquire kf file3 with
              | none => .error .deadlock
              | some kg =>
                match VOP_WRITE kg.files (ofGet kg file3).of_vnode (ofGet kg file3).of_offset
                    (buf2.fill r2).toList with
                | .error e => .error (.ret (.err e) none [] kg)
                | .ok fs2 =>
                  let kh := lock_release
                    (setOffset { kg with files := fs2 } file3 ((ofGet kg file3).of_offset + 4))
                    file3
                  .ok (kh, buf1.fill r1, buf2.fill r2)

/-- The loop `while (count < statSize/2) { ...; count += 4; }` of `sys_meld`, with
`half = statSize/2`. The fuel bounds the number of iterations. -/
def meld_loop (fuel : Nat) (k : Kernel) (file1 file2 file3 : Nat) (buf1 buf2 : Buf4)
    (count half : Int) : Except Outcome (Kernel × Buf4 × Buf4) :=
  if count < half then
    match fuel with
    | 0 => .error .outOfFuel
    | fuel + 1 =>
      match meld_body k file1 file2 file3 buf1 buf2 with
      | .error o => .error o
      | .ok (k1, buf1a, buf2a) =>
        meld_loop fuel k1 file1 file2 file3 buf1a buf2a (count + 4) half
  else .ok (k, buf1, buf2)

/-- The closing part of `sys_meld`: the `KASSERT` on `fd`, then three times
`filetable_placeat` with `NULL` at the same `fd`, each followed by `ENOENT` when
the slot was empty and by `openfile_decref` otherwise. -/
def meld_close (occ : Bool) (k : Kernel) (fd : Int) (retval : Option Int) : Outcome :=
  if filetable_okfd occ k.table fd then
    match filetable_placeat k none fd with
    | (none, k1) => .ret (.err .ENOENT) retval [] k1
    | (some file1, k1) =>
      let k2 := openfile_decref k1 file1
      match filetable_placeat k2 none fd with
      | (none, k3) => .ret (.err .ENOENT) retval [] k3
      | (some file2, k3) =>
        let k4 := openfile_decref k3 file2
        match filetable_placeat k4 none fd with
        | (none, k5) => .ret (.err .ENOENT) retval [] k5
        | (some file3, k5) => .ret .ok retval [] (openfile_decref k5 file3)
  else .kassert

/-- The function `sys_meld`. `buf1` and `buf2` are the contents of the two freshly
allocated scratch buffers. `statSize` and `count` are C `int`s; `count` stays
below `statSize/2 + 4`, so `count += 4` does not overflow. The loop gets
`statSize/2` units of fuel, which is more than the iterations it can make. -/
def sys_meld (occ : Bool) (k : Kernel) (pn1 pn2 pn3 : UserStr) (buf1 buf2 : Buf4) : Outcome :=
  match copyinstr pn1 PATH_MAX with
  | .error e => .ret (.err e) none [] k
  | .ok kpathPn1 =>
  match copyinstr pn2 PATH_MAX with
  | .error e => .ret (.err e) none [] k
  | .ok kpathPn2 =>
  match copyinstr pn3 PATH_MAX with
  | .error e => .ret (.err e) none [] k
  | .ok kpathPn3 =>
  match openfile_open k kpathPn1 O_RDWR 0o664 with
  | .error _ => .ret (.err .ENOENT) none [] k
  | .ok (file1, k1) =>
  match openfile_open k1 kpathPn2 O_RDWR 0o664 with
  | .error _ => .ret (.err .ENOENT) none [] k1
  | .ok (file2, k2) =>
  match openfile_open k2 kpathPn3 (O_WRONLY ||| O_CREAT ||| O_EXCL) 0o664 with
  | .error _ => .ret (.err .EEXIST) none [] k2
  | .ok (file3, k3) =>
  match filetable_place k3 file1 with
  | .error e => .ret (.err e) none [] k3
  | .ok (_, k4) =>
  match filetable_place k4 file2 with
  | .error e => .ret (.err e) none [] k4
  | .ok (_, k5) =>
  match filetable_place k5 file3 with
  | .error e => .ret (.err e) none [] k5
  | .ok (value, k6) =>
  let fd := value
  let statSize0 := toInt32 (VOP_STAT k6.files (ofGet k6 file1).of_vnode)
  let statSize := toInt32 (statSize0 + VOP_STAT k6.files (ofGet k6 file2).of_vnode)
  match meld_loop (Int.tdiv statSize 2).toNat k6 file1 file2 file3 buf1 buf2 0
      (Int.tdiv statSize 2) with
  | .error o => o
  | .ok (k7, _, _) =>
    meld_close occ k7 fd (some (toInt32 (ofGet k7 file3).of_offset))

/-! ## The interleaved stream, from the words of the specification -/

/-- The byte budget of the spec, `floor((size1 + size2) / 2)`. -/
def budget (d1 d2 : List Byte) : Nat := (d1.length + d2.length) / 2

/-- The number of iterations the loop of `sys_meld` makes for a given budget. -/
def rounds (d1 d2 : List Byte) : Nat := (budget d1 d2 + 3) / 4

/-! ## Example states -/

/-- The two input files written by the test program `testbin/meld`. -/
def testFiles : List (Path × VFile) :=
  [("testfile01", ⟨"AAAABBBBCCCC".toList, false⟩), ("testfile02", ⟨"ddddeeeeffff".toList, false⟩)]

/-- A kernel state holding the two test files and an empty table of 4 slots. -/
def testKernel : Kernel := ⟨testFiles, [], [none, none, none, none], 0, 0⟩

/-- Scratch buffer contents used in the examples. -/
def zBuf : Buf4 := ⟨'z', 'z', 'z', 'z'⟩

/-- The test files, one descriptor (slot 0) open read-only on the first of them. -/
def roKernel : Kernel :=
  ⟨testFiles, [⟨"testfile01", O_RDONLY, 0, 1, false⟩], [some 0, none], 0, 0⟩

/-- The test files, one descriptor (slot 0) open write-only on the first of them. -/
def woKernel : Kernel :=
  ⟨testFiles, [⟨"testfile01", O_WRONLY, 0, 1, false⟩], [some 0, none], 0, 0⟩

/-- A file whose device fails, open read-write at descriptor 0. -/
def faultyKernel : Kernel :=
  ⟨[("broken", ⟨"data".toList, true⟩)], [⟨"broken", O_RDWR, 0, 1, false⟩], [some 0, none], 0, 0⟩

/-- The test files and a table of one slot, which is occupied. -/
def fullKernel : Kernel :=
  ⟨testFiles, [⟨"testfile01", O_RDONLY, 0, 1, false⟩], [some 0], 0, 0⟩

/-- The test files and an empty table with only two slots. -/
def twoSlotKernel : Kernel := ⟨testFiles, [], [none, none], 0, 0⟩

/-- Only the first test file exists; the table is empty. -/
def oneFileKernel : Kernel :=
  ⟨[("testfile01", ⟨"AAAABBBBCCCC".toList, false⟩)], [], [none, none, none, none], 0, 0⟩

/-- The test files, the device of the first failing; the table is empty. -/
def faultyInputKernel : Kernel :=
  ⟨[("testfile01", ⟨"AAAABBBBCCCC".toList, true⟩), ("testfile02", ⟨"ddddeeeeffff".toList, false⟩)],
    [], [none, none, none, none], 0, 0⟩

/-! ## Auxiliary definitions for the proofs -/

/-- The state `sys_open` leaves when it opens the first test file read-only from
`testKernel`. -/
def openedKernel : Kernel :=
  ⟨testFiles, [⟨"testfile01", O_RDONLY, 0, 1, false⟩], [some 0, none, none, none], 0, 0⟩

/-- The kernel state `k` with its file system and table replaced and three more
openfile objects allocated behind the existing ones. -/
def st3 (k : Kernel) (fs : List (Path × VFile)) (t : List (Option Nat))
    (o1 o2 o3 : OpenFile) : Kernel :=
  { files := fs, ofs := k.ofs ++ [o1, o2, o3], table := t, gets := k.gets, puts := k.puts }

/-- The bytes `sys_meld` appends to file 3 in `n` iterations, as a function of the
two inputs, the offsets `a`, `b` reached in them and the contents of the two
scratch buffers. -/
def meldStream (d1 d2 : List Byte) : Nat → Nat → Nat → Buf4 → Buf4 → List Byte
  | 0, _, _, _, _ => []
  | n + 1, a, b, buf1, buf2 =>
    (buf1.fill ((d1.drop a).take 4)).toList ++ (buf2.fill ((d2.drop b).take 4)).toList ++
      meldStream d1 d2 n (a + ((d1.drop a).take 4).length) (b + ((d2.drop b).take 4).length)
        (buf1.fill ((d1.drop a).take 4)) (buf2.fill ((d2.drop b).take 4))

/-- The offset an input file `d` is at after `n` reads of 4 bytes that started at
offset `a`: each read advances the offset by the number of bytes it returned. -/
def meldOff (d : List Byte) : Nat → Nat → Nat
  | 0, a => a
  | n + 1, a => meldOff d n (a + ((d.drop a).take 4).length)

/-- The kernel state a call returned in, if it returned. -/
def outKernel : Outcome → Option Kernel
  | .ret _ _ _ k => some k
  | _ => none

/-- The status a call returned, if it returned. -/
def outStatus : Outcome → Option Status
  | .ret s _ _ _ => some s
  | _ => none

/-- The value a call stored in `*retval` before it returned, if any. -/
def outRetval : Outcome → Option Int
  | .ret _ rv _ _ => rv
  | _ => none

/-- The bytes of the file at a path when the call has returned; none when the call
did not return or no such file exists then. -/
def outFile (o : Outcome) (p : Path) : Option (List Byte) :=
  match outKernel o with
  | none => none
  | some k => (fsLookup k.files p).map (·.data)

/-- The slots of the descriptor table when the call has returned. -/
def outTable (o : Outcome) : Option (List (Option Nat)) := (outKernel o).map (·.table)

/-- The openfile object behind a pointer when the call has returned. -/
def outOpenFile (o : Outcome) (p : Nat) : Option OpenFile := (outKernel o).map (ofGet · p)

/-- The state in which `sys_meld` returns when it is called on the two test files
from `testKernel`. -/
def meldedKernel : Kernel :=
  ⟨testFiles ++ [("testfile03", ⟨"AAAAddddBBBBeeeeCCCCffff".toList, false⟩)],
    [⟨"testfile01", O_RDWR, 12, 1, false⟩, ⟨"testfile02", O_RDWR, 12, 1, false⟩,
      ⟨"testfile03", O_WRONLY, 24, 0, false⟩],
    [some 0, some 1, none, none], 0, 0⟩

theorem set_getD_self {α : Type} (l : List α) (i : Nat) (d : α) : l.set i (l.getD i d) = l := by
  induction l generalizing i with
  | nil => simp
  | cons x xs ih =>
    cases i with
    | zero => simp
    | succ j => simpa using ih j

theorem getD_set_self {α : Type} (l : List α) (i : Nat) (a d : α) (h : i < l.length) :
    (l.set i a).getD i d = a := by
  induction l generalizing i with
  | nil => simp at h
  | cons x xs ih =>
    cases i with
    | zero => simp
    | succ j => simpa using ih j (by simpa using h)

theorem firstFree_spec (t : List (Option Nat)) (i : Nat) (h : firstFree t = some i) :
    i < t.length ∧ t.getD i none = none := by
  induction t generalizing i with
  | nil => simp [firstFree] at h
  | cons x xs ih =>
    cases x with
    | none =>
      simp [firstFree] at h
      subst h
      simp
    | some v =>
      simp [firstFree] at h
      obtain ⟨j, hj, rfl⟩ := h
      have := ih j hj
      simpa using this

theorem slotAt_natCast (t : List (Option Nat)) (i : Nat) :
    slotAt t (i : Int) = t.getD i none := by
  simp [slotAt]

/-! ## Closing a descriptor -/

theorem openfile_open_spec (k : Kernel) (path : Path) (flags mode : Nat) (file : Nat)
    (k1 : Kernel) (h : openfile_open k path flags mode = .ok (file, k1)) :
    file = k.ofs.length ∧ k1.table = k.table ∧ k1.gets = k.gets ∧ k1.puts = k.puts ∧
      k1.ofs = k.ofs ++ [⟨path, flags &&& O_ACCMODE, 0, 1, false⟩] := by
  unfold openfile_open at h
  split at h
  · cases h
  · simp only [Except.ok.injEq, Prod.mk.injEq] at h
    obtain ⟨rfl, rfl⟩ := h
    simp

theorem filetable_place_spec (k : Kernel) (file : Nat) (fd : Int) (k1 : Kernel)
    (h : filetable_place k file = .ok (fd, k1)) :
    ∃ i, firstFree k.table = some i ∧ fd = (i : Int) ∧
      k1 = { k with table := k.table.set i (some file) } := by
  unfold filetable_place at h
  split at h
  · cases h
  · rename_i i hfree
    simp only [Except.ok.injEq, Prod.mk.injEq] at h
    exact ⟨i, hfree, h.1.symm, h.2.symm⟩

/-- Claim C10: whenever `sys_open` succeeds, it has stored a descriptor `fd` in
`*retval`, and `sys_close(fd)` called next succeeds and leaves the table exactly as
it was before the `sys_open`; the openfile created by the open (reference count 1
after the open) has reference count 0, that is, it has been destroyed, and every
other openfile object is untouched. -/
theorem sys_open_then_close (occ : Bool) (k : Kernel) (upath : UserStr) (flags mode : Nat)
    (rv : Option Int) (ubuf : List Byte) (k1 : Kernel)
    (h : sys_open k upath flags mode = .ret .ok rv ubuf k1) :
    ∃ fd k2, rv = some fd ∧ sys_close occ k1 fd = .ret .ok none [] k2 ∧
      k2.table = k.table ∧
      (ofGet k1 k.ofs.length).of_refcount = 1 ∧
      (ofGet k2 k.ofs.length).of_refcount = 0 ∧
      k2.ofs.length = k.ofs.length + 1 ∧
      ∀ p, p < k.ofs.length → ofGet k2 p = ofGet k p := by
  unfold sys_open at h
  split at h
  · cases h
  · split at h
    · cases h
    · rename_i kpath _
      split at h
      · cases h
      · rename_i file ko hopen
        obtain ⟨rfl, htab, -, -, hofs⟩ := openfile_open_spec k kpath flags mode file ko hopen
        split at h
        · cases h
        · rename_i fd0 kp hplace
          simp only [Outcome.ret.injEq, true_and] at h
          obtain ⟨rfl, rfl, rfl⟩ := h
          obtain ⟨i, hfree, rfl, rfl⟩ := filetable_place_spec ko k.ofs.length fd0 kp hplace
          rw [htab] at hfree ⊢
          obtain ⟨hlt, hnone⟩ := firstFree_spec k.table i hfree
          have hslot : slotAt (k.table.set i (some k.ofs.length)) (i : Int)
              = some k.ofs.length := by
            rw [slotAt_natCast]
            exact getD_set_self _ _ _ _ hlt
          have hok : filetable_okfd occ (k.table.set i (some k.ofs.length)) (i : Int) = true := by
            simp [filetable_okfd, hslot, hlt]
          have hback : (k.table.set i (some k.ofs.length)).set i none = k.table := by
            rw [List.set_set]
            have := set_getD_self k.table i none
            rwa [hnone] at this
          refine ⟨(i : Int), openfile_decref { ko with table := k.table } k.ofs.length,
            rfl, ?_, ?_⟩
          · unfold sys_close
            simp only [hok, if_true, filetable_placeat, hslot, Int.toNat_ofNat,
              Int.ofNat_zero_le, hback]
          · simp [openfile_decref, ofSet, ofGet, hofs]
            intro p hp
            rw [List.getElem?_append_left hp]

/-- Witness of `sys_open_then_close`: opening the first test file read-only. -/
theorem sys_open_then_close_witness :
    sys_open testKernel (.str "testfile01") O_RDONLY 0 = .ret .ok (some 0) [] openedKernel ∧
      ∃ fd k2, some (0 : Int) = some fd ∧ sys_close false openedKernel fd = .ret .ok none [] k2 ∧
        k2.table = testKernel.table ∧
        (ofGet openedKernel testKernel.ofs.length).of_refcount = 1 ∧
        (ofGet k2 testKernel.ofs.length).of_refcount = 0 ∧
        k2.ofs.length = testKernel.ofs.length + 1 ∧
        ∀ p, p < testKernel.ofs.length → ofGet k2 p = ofGet testKernel p :=
  ⟨by decide,
    sys_open_then_close false testKernel (.str "testfile01") O_RDONLY 0 (some 0) []
      openedKernel (by decide)⟩

/-- Claim C9, the code at a full table: `sys_open` of the existing second test
file returns `EMFILE` and leaves the table as it was, but the openfile it created
(object 1) is still there with reference count 1: it was never released. -/
theorem sys_open_full_table_leaks :
    sys_open fullKernel (.str "testfile02") O_RDONLY 0 =
        .ret (.err .EMFILE) none []
          { fullKernel with
            ofs := fullKernel.ofs ++ [⟨"testfile02", O_RDONLY, 0, 1, false⟩] } ∧
      firstFree fullKernel.table = none ∧
      (ofGet { fullKernel with
            ofs := fullKernel.ofs ++ [⟨"testfile02", O_RDONLY, 0, 1, false⟩] } 1).of_refcount
        = 1 := by
  decide

/-! ## Reading and writing -/

theorem lock_cycle (k : Kernel) (file : Nat) (h : (ofGet k file).of_offsetlock = false) :
    ∃ k2, lock_acquire k file = some k2 ∧ lock_release k2 file = k ∧
      (ofGet k2 file).of_accmode = (ofGet k file).of_accmode := by
  refine ⟨ofSet k file { ofGet k file with of_offsetlock := true },
    by simp [lock_acquire, h], ?_, ?_⟩
  · cases k with
    | mk files ofs table gets puts =>
      simp only [lock_release, ofSet, ofGet, List.set_set] at h ⊢
      congr 1
      by_cases hlt : file < ofs.length
      · rw [getD_set_self _ _ _ _ hlt]
        have := set_getD_self ofs file default
        rw [← this]
        simp only [List.set_set]
        congr 1
        rw [this]
        cases hg : ofs.getD file default
        rw [hg] at h
        simp only at h
        subst h
        rfl
      · rw [List.set_eq_of_length_le (by omega)]
  · simp only [ofSet, ofGet]
    by_cases hlt : file < k.ofs.length
    · rw [getD_set_self _ _ _ _ hlt]
    · rw [List.set_eq_of_length_le (by omega)]

/-- Claim C7, as the code has it: on a descriptor whose openfile is write-only (and
whose offset lock is free), `sys_read` returns `EACCES`; on a descriptor whose
openfile is read-only, `sys_write` returns `EBADF`. In both cases no byte is
transferred and the kernel state is the one before the call except for the count
of `filetable_get` calls: no file and no offset has changed. -/
theorem access_mode_refusal (k : Kernel) (fd : Int) (file : Nat)
    (hslot : slotAt k.table fd = some file)
    (hlock : (ofGet k file).of_offsetlock = false) :
    ((ofGet k file).of_accmode = O_WRONLY →
        ∀ size, sys_read k fd size = .ret (.err .EACCES) none [] { k with gets := k.gets + 1 }) ∧
      ((ofGet k file).of_accmode = O_RDONLY →
        ∀ data, sys_write k fd data
          = .ret (.err .EBADF) none [] { k with gets := k.gets + 1 }) := by
  have hget : filetable_get k fd = .ok (file, { k with gets := k.gets + 1 }) := by
    simp [filetable_get, hslot]
  obtain ⟨k2, hacq, hrel, hacc⟩ := lock_cycle { k with gets := k.gets + 1 } file hlock
  have hacc2 : (ofGet k2 file).of_accmode = (ofGet k file).of_accmode := hacc
  constructor
  · intro hmode size
    unfold sys_read
    rw [hget]
    simp only [hacq, hacc2, hmode, if_true, hrel]
  · intro hmode data
    unfold sys_write
    rw [hget]
    simp only [hacq, hacc2, hmode, if_true, hrel]

/-- Witness of `access_mode_refusal`: descriptor 0 of `woKernel`, write-only. -/
theorem access_mode_refusal_witness :
    slotAt woKernel.table 0 = some 0 ∧ (ofGet woKernel 0).of_offsetlock = false ∧
      (((ofGet woKernel 0).of_accmode = O_WRONLY →
        ∀ size, sys_read woKernel 0 size
          = .ret (.err .EACCES) none [] { woKernel with gets := woKernel.gets + 1 }) ∧
      ((ofGet woKernel 0).of_accmode = O_RDONLY →
        ∀ data, sys_write woKernel 0 data
          = .ret (.err .EBADF) none [] { woKernel with gets := woKernel.gets + 1 })) :=
  ⟨by decide, by decide, access_mode_refusal woKernel 0 0 (by decide) (by decide)⟩

/-- Claim C7 fails as stated: `sys_write` on the read-only descriptor 0 of
`roKernel` returns `EBADF`, not `EACCES`. -/
theorem sys_write_read_only_returns_EBADF :
    (ofGet roKernel 0).of_accmode = O_RDONLY ∧
      sys_write roKernel 0 "hi".toList = .ret (.err .EBADF) none [] { roKernel with gets := 1 } ∧
      sys_write roKernel 0 "hi".toList ≠ .ret (.err .EACCES) none [] { roKernel with gets := 1 } := by
  decide

/-- Claim C6, the code on its error paths. A failing vnode read or write makes
`sys_read` and `sys_write` return with the offset lock still held and without a
`filetable_put` for the `filetable_get` (1 get, 0 puts); the access-mode refusals
release the lock but also return without the `filetable_put`. -/
theorem sys_read_write_error_paths :
    sys_read faultyKernel 0 4 = .ret (.err .EIOERR) none []
        ⟨faultyKernel.files, [⟨"broken", O_RDWR, 0, 1, true⟩], faultyKernel.table, 1, 0⟩ ∧
      sys_write faultyKernel 0 "hi".toList = .ret (.err .EIOERR) none []
        ⟨faultyKernel.files, [⟨"broken", O_RDWR, 0, 1, true⟩], faultyKernel.table, 1, 0⟩ ∧
      sys_read woKernel 0 4 = .ret (.err .EACCES) none []
        ⟨woKernel.files, woKernel.ofs, woKernel.table, 1, 0⟩ ∧
      sys_write roKernel 0 "hi".toList = .ret (.err .EBADF) none []
        ⟨roKernel.files, roKernel.ofs, roKernel.table, 1, 0⟩ ∧
      sys_read roKernel 0 4 = .ret .ok (some 4) "AAAA".toList
        ⟨roKernel.files, [⟨"testfile01", O_RDONLY, 4, 1, false⟩], roKernel.table, 1, 1⟩ := by
  decide

/-! ## The file system map -/

theorem fsLookup_fsStore_same (fs : List (Path × VFile)) (p : Path) (v : VFile) :
    fsLookup (fsStore fs p v) p = some v := by
  induction fs with
  | nil => simp [fsStore, fsLookup]
  | cons x xs ih =>
    obtain ⟨q, w⟩ := x
    by_cases h : q = p
    · simp [fsStore, fsLookup, h]
    · simp [fsStore, fsLookup, h, ih]

theorem fsLookup_fsStore_other (fs : List (Path × VFile)) (p q : Path) (v : VFile)
    (hne : p ≠ q) : fsLookup (fsStore fs p v) q = fsLookup fs q := by
  induction fs with
  | nil => simp [fsStore, fsLookup, hne]
  | cons x xs ih =>
    obtain ⟨r, w⟩ := x
    by_cases h : r = p
    · subst h
      simp [fsStore, fsLookup, hne]
    · by_cases h2 : r = q
      · subst h2
        simp [fsStore, fsLookup, h]
      · simp [fsStore, fsLookup, h, h2, ih]

theorem fsStore_fsStore (fs : List (Path × VFile)) (p : Path) (v w : VFile) :
    fsStore (fsStore fs p v) p w = fsStore fs p w := by
  induction fs with
  | nil => simp [fsStore]
  | cons x xs ih =>
    obtain ⟨q, u⟩ := x
    by_cases h : q = p
    · simp [fsStore, h]
    · simp [fsStore, h, ih]

theorem fsStore_self (fs : List (Path × VFile)) (p : Path) (v : VFile)
    (h : fsLookup fs p = some v) : fsStore fs p v = fs := by
  induction fs with
  | nil => simp [fsLookup] at h
  | cons x xs ih =>
    obtain ⟨q, u⟩ := x
    by_cases hq : q = p
    · simp [fsLookup, hq] at h
      simp [fsStore, hq, h]
    · simp [fsLookup, hq] at h
      simp [fsStore, hq, ih h]

theorem writeAt_end (content data : List Byte) :
    writeAt content content.length data = content ++ data := by
  simp [writeAt]

/-! ## States with three fresh openfile objects -/

theorem st3_files (k : Kernel) (fs : List (Path × VFile)) (t : List (Option Nat))
    (o1 o2 o3 : OpenFile) : (st3 k fs t o1 o2 o3).files = fs := rfl

theorem st3_table (k : Kernel) (fs : List (Path × VFile)) (t : List (Option Nat))
    (o1 o2 o3 : OpenFile) : (st3 k fs t o1 o2 o3).table = t := rfl

theorem st3_with_files (k : Kernel) (fs fs1 : List (Path × VFile)) (t : List (Option Nat))
    (o1 o2 o3 : OpenFile) :
    { st3 k fs t o1 o2 o3 with files := fs1 } = st3 k fs1 t o1 o2 o3 := rfl

theorem st3_with_table (k : Kernel) (fs : List (Path × VFile)) (t t1 : List (Option Nat))
    (o1 o2 o3 : OpenFile) :
    { st3 k fs t o1 o2 o3 with table := t1 } = st3 k fs t1 o1 o2 o3 := rfl

theorem getD_append_add {α : Type} (l r : List α) (j : Nat) (d : α) :
    (l ++ r).getD (l.length + j) d = r.getD j d := by
  induction l with
  | nil => simp
  | cons x xs ih =>
    have : (x :: xs).length + j = (xs.length + j) + 1 := by simp; omega
    rw [this]
    simpa using ih

theorem ofGet_st3_0 (k : Kernel) (fs : List (Path × VFile)) (t : List (Option Nat))
    (o1 o2 o3 : OpenFile) : ofGet (st3 k fs t o1 o2 o3) k.ofs.length = o1 := by
  have := getD_append_add k.ofs [o1, o2, o3] 0 default
  simpa [ofGet, st3] using this

theorem ofGet_st3_1 (k : Kernel) (fs : List (Path × VFile)) (t : List (Option Nat))
    (o1 o2 o3 : OpenFile) : ofGet (st3 k fs t o1 o2 o3) (k.ofs.length + 1) = o2 := by
  have := getD_append_add k.ofs [o1, o2, o3] 1 default
  simpa [ofGet, st3] using this

theorem ofGet_st3_2 (k : Kernel) (fs : List (Path × VFile)) (t : List (Option Nat))
    (o1 o2 o3 : OpenFile) : ofGet (st3 k fs t o1 o2 o3) (k.ofs.length + 2) = o3 := by
  have := getD_append_add k.ofs [o1, o2, o3] 2 default
  simpa [ofGet, st3] using this

theorem ofSet_st3_0 (k : Kernel) (fs : List (Path × VFile)) (t : List (Option Nat))
    (o1 o2 o3 o : OpenFile) :
    ofSet (st3 k fs t o1 o2 o3) k.ofs.length o = st3 k fs t o o2 o3 := by
  simp [ofSet, st3, List.set_append]

theorem ofSet_st3_1 (k : Kernel) (fs : List (Path × VFile)) (t : List (Option Nat))
    (o1 o2 o3 o : OpenFile) :
    ofSet (st3 k fs t o1 o2 o3) (k.ofs.length + 1) o = st3 k fs t o1 o o3 := by
  simp [ofSet, st3, List.set_append]

theorem ofSet_st3_2 (k : Kernel) (fs : List (Path × VFile)) (t : List (Option Nat))
    (o1 o2 o3 o : OpenFile) :
    ofSet (st3 k fs t o1 o2 o3) (k.ofs.length + 2) o = st3 k fs t o1 o2 o := by
  simp [ofSet, st3, List.set_append]

/-! ## The loop of `sys_meld` -/

theorem writeAt_append4 (content : List Byte) (b : Buf4) (data : List Byte) :
    writeAt (content ++ b.toList) (content.length + 4) data = content ++ b.toList ++ data := by
  have h : content.length + 4 = (content ++ b.toList).length := by simp [Buf4.toList]
  rw [h, writeAt_end]

theorem meld_body_st3 (k : Kernel) (fs : List (Path × VFile)) (t : List (Option Nat))
    (p1 p2 p3 : Path) (m1 m2 m3 : Nat) (d1 d2 content : List Byte) (a b : Nat)
    (buf1 buf2 : Buf4)
    (h1 : fsLookup fs p1 = some ⟨d1, false⟩) (h2 : fsLookup fs p2 = some ⟨d2, false⟩)
    (h3 : fsLookup fs p3 = some ⟨content, false⟩) :
    meld_body
        (st3 k fs t ⟨p1, m1, a, 1, false⟩ ⟨p2, m2, b, 1, false⟩
          ⟨p3, m3, content.length, 1, false⟩)
        k.ofs.length (k.ofs.length + 1) (k.ofs.length + 2) buf1 buf2
      = .ok (st3 k
          (fsStore fs p3 ⟨content ++ (buf1.fill ((d1.drop a).take 4)).toList
            ++ (buf2.fill ((d2.drop b).take 4)).toList, false⟩) t
          ⟨p1, m1, a + ((d1.drop a).take 4).length, 1, false⟩
          ⟨p2, m2, b + ((d2.drop b).take 4).length, 1, false⟩
          ⟨p3, m3, content.length + 4 + 4, 1, false⟩,
        buf1.fill ((d1.drop a).take 4), buf2.fill ((d2.drop b).take 4)) := by
  unfold meld_body
  simp only [lock_acquire, lock_release, setOffset, ofGet_st3_0, ofGet_st3_1, ofGet_st3_2,
    ofSet_st3_0, ofSet_st3_1, ofSet_st3_2, st3_files, st3_with_files, VOP_READ, VOP_WRITE,
    h1, h2, h3, fsLookup_fsStore_same, fsStore_fsStore, writeAt_end, writeAt_append4,
    Bool.false_eq_true, if_false]

theorem meld_loop_st3 (k : Kernel) (t : List (Option Nat)) (p1 p2 p3 : Path)
    (m1 m2 m3 : Nat) (d1 d2 : List Byte) (half : Int) (h13 : p3 ≠ p1) (h23 : p3 ≠ p2)
    (n : Nat) :
    ∀ (fuel : Nat) (fs : List (Path × VFile)) (content : List Byte) (a b : Nat)
      (buf1 buf2 : Buf4) (count : Int),
      fsLookup fs p1 = some ⟨d1, false⟩ → fsLookup fs p2 = some ⟨d2, false⟩ →
      fsLookup fs p3 = some ⟨content, false⟩ →
      n ≤ fuel → half ≤ count + 4 * (n : Int) → (0 < n → count + 4 * (n : Int) < half + 4) →
      ∃ bufa bufb,
        meld_loop fuel
            (st3 k fs t ⟨p1, m1, a, 1, false⟩ ⟨p2, m2, b, 1, false⟩
              ⟨p3, m3, content.length, 1, false⟩)
            k.ofs.length (k.ofs.length + 1) (k.ofs.length + 2) buf1 buf2 count half
          = .ok (st3 k (fsStore fs p3 ⟨content ++ meldStream d1 d2 n a b buf1 buf2, false⟩) t
              ⟨p1, m1, meldOff d1 n a, 1, false⟩ ⟨p2, m2, meldOff d2 n b, 1, false⟩
              ⟨p3, m3, content.length + 8 * n, 1, false⟩, bufa, bufb) := by
  induction n with
  | zero =>
    intro fuel fs content a b buf1 buf2 count h1 h2 h3 _ hhi _
    refine ⟨buf1, buf2, ?_⟩
    have hc : ¬ count < half := by omega
    rw [meld_loop.eq_def, if_neg hc]
    simp [meldStream, meldOff, fsStore_self fs p3 _ h3]
  | succ n ih =>
    intro fuel fs content a b buf1 buf2 count h1 h2 h3 hfuel hhi hlo
    have hc : count < half := by
      have := hlo (Nat.succ_pos n)
      push_cast at this
      omega
    obtain ⟨f, rfl⟩ : ∃ f, fuel = f + 1 := ⟨fuel - 1, by omega⟩
    rw [meld_loop.eq_def, if_pos hc]
    simp only [meld_body_st3 k fs t p1 p2 p3 m1 m2 m3 d1 d2 content a b buf1 buf2 h1 h2 h3]
    have hlen : content.length + 4 + 4
        = (content ++ (buf1.fill ((d1.drop a).take 4)).toList
            ++ (buf2.fill ((d2.drop b).take 4)).toList).length := by
      simp [Buf4.toList]
    rw [hlen]
    obtain ⟨bufa, bufb, hrun⟩ := ih f
      (fsStore fs p3 ⟨content ++ (buf1.fill ((d1.drop a).take 4)).toList
            ++ (buf2.fill ((d2.drop b).take 4)).toList, false⟩)
      (content ++ (buf1.fill ((d1.drop a).take 4)).toList
            ++ (buf2.fill ((d2.drop b).take 4)).toList)
      (a + ((d1.drop a).take 4).length) (b + ((d2.drop b).take 4).length)
      (buf1.fill ((d1.drop a).take 4)) (buf2.fill ((d2.drop b).take 4)) (count + 4)
      (by rw [fsLookup_fsStore_other _ _ _ _ h13]; exact h1)
      (by rw [fsLookup_fsStore_other _ _ _ _ h23]; exact h2)
      (fsLookup_fsStore_same _ _ _)
      (by omega) (by push_cast at hhi; omega)
      (by intro hn; have := hlo (Nat.succ_pos n); push_cast at this; omega)
    refine ⟨bufa, bufb, ?_⟩
    rw [hrun, fsStore_fsStore, ← hlen]
    simp only [meldStream, meldOff, List.append_assoc]
    congr 4
    omega

/-! ## Opening, placing and closing in `sys_meld` -/

theorem firstFree_of_count (t : List (Option Nat)) (h : 0 < t.count none) :
    ∃ i, firstFree t = some i := by
  induction t with
  | nil => simp at h
  | cons x xs ih =>
    cases x with
    | none => exact ⟨0, rfl⟩
    | some v =>
      have hx : 0 < xs.count none := by simpa [List.count_cons] using h
      obtain ⟨i, hi⟩ := ih hx
      exact ⟨i + 1, by simp [firstFree, hi]⟩

theorem count_set_firstFree (t : List (Option Nat)) (i f : Nat) (h : firstFree t = some i) :
    (t.set i (some f)).count none + 1 = t.count none := by
  induction t generalizing i with
  | nil => simp [firstFree] at h
  | cons x xs ih =>
    cases x with
    | none =>
      simp [firstFree] at h
      subst h
      simp [List.count_cons]
    | some v =>
      simp [firstFree] at h
      obtain ⟨j, hj, rfl⟩ := h
      have := ih j hj
      simpa [List.count_cons] using this

/-- The conversion `toInt32` is reduction modulo 2^32 into the range of a C `int`. -/
theorem toInt32_eq_wrap (x : Int) : toInt32 x = (x + 2 ^ 31) % 2 ^ 32 - 2 ^ 31 := by
  cases x with
  | ofNat n =>
    simp only [toInt32]
    split
    · rename_i h
      have : Int.ofNat n = (n : Int) := rfl
      rw [this]
      omega
    · rfl
  | negSucc n =>
    simp only [toInt32]
    split
    · rename_i h
      have : Int.negSucc n = -((n : Int) + 1) := rfl
      rw [this]
      omega
    · rfl

theorem toInt32_of_lt (x : Nat) (h : x < 2 ^ 31) : toInt32 (x : Int) = (x : Int) := by
  show toInt32 (Int.ofNat x) = _
  simp only [toInt32, if_pos h]
  rfl

theorem meld_opens (k : Kernel) (p1 p2 p3 : Path) (v1 v2 : VFile) (m : Nat)
    (h1 : fsLookup k.files p1 = some v1) (h2 : fsLookup k.files p2 = some v2)
    (h3 : fsLookup k.files p3 = none) :
    openfile_open k p1 O_RDWR m
        = .ok (k.ofs.length, { k with ofs := k.ofs ++ [⟨p1, O_RDWR, 0, 1, false⟩] }) ∧
      openfile_open { k with ofs := k.ofs ++ [⟨p1, O_RDWR, 0, 1, false⟩] } p2 O_RDWR m
        = .ok (k.ofs.length + 1,
            { k with ofs := k.ofs ++ [⟨p1, O_RDWR, 0, 1, false⟩, ⟨p2, O_RDWR, 0, 1, false⟩] }) ∧
      openfile_open
          { k with ofs := k.ofs ++ [⟨p1, O_RDWR, 0, 1, false⟩, ⟨p2, O_RDWR, 0, 1, false⟩] }
          p3 (O_WRONLY ||| O_CREAT ||| O_EXCL) m
        = .ok (k.ofs.length + 2,
            st3 k (fsStore k.files p3 ⟨[], false⟩) k.table ⟨p1, O_RDWR, 0, 1, false⟩
              ⟨p2, O_RDWR, 0, 1, false⟩ ⟨p3, O_WRONLY, 0, 1, false⟩) := by
  have e1 : hasFlag O_RDWR O_CREAT = false := by decide
  have e2 : hasFlag O_RDWR O_TRUNC = false := by decide
  have e3 : hasFlag (O_WRONLY ||| O_CREAT ||| O_EXCL) O_CREAT = true := by decide
  have e4 : O_RDWR &&& O_ACCMODE = O_RDWR := by decide
  have e5 : (O_WRONLY ||| O_CREAT ||| O_EXCL) &&& O_ACCMODE = O_WRONLY := by decide
  refine ⟨?_, ?_, ?_⟩
  · simp [openfile_open, vfs_open, h1, e1, e2, e4]
  · simp [openfile_open, vfs_open, h2, e1, e2, e4]
  · simp [openfile_open, vfs_open, h3, e3, e5, st3]

theorem filetable_place_st3 (k : Kernel) (fs : List (Path × VFile)) (t : List (Option Nat))
    (o1 o2 o3 : OpenFile) (file i : Nat) (h : firstFree t = some i) :
    filetable_place (st3 k fs t o1 o2 o3) file
      = .ok ((i : Int), st3 k fs (t.set i (some file)) o1 o2 o3) := by
  simp [filetable_place, st3, h]

theorem meld_close_st3 (occ : Bool) (k : Kernel) (fs : List (Path × VFile))
    (t : List (Option Nat)) (o1 o2 : OpenFile) (p : Path) (m c : Nat) (i : Nat)
    (rv : Option Int) (h : firstFree t = some i) :
    meld_close occ (st3 k fs (t.set i (some (k.ofs.length + 2))) o1 o2 ⟨p, m, c, 1, false⟩)
        (i : Int) rv
      = .ret (.err .ENOENT) rv [] (st3 k fs t o1 o2 ⟨p, m, c, 0, false⟩) := by
  obtain ⟨hlt, hnone⟩ := firstFree_spec t i h
  have hslot : slotAt (t.set i (some (k.ofs.length + 2))) (i : Int)
      = some (k.ofs.length + 2) := by
    rw [slotAt_natCast]
    exact getD_set_self _ _ _ _ hlt
  have hok : filetable_okfd occ (t.set i (some (k.ofs.length + 2))) (i : Int) = true := by
    simp [filetable_okfd, hslot, hlt]
  have hback : (t.set i (some (k.ofs.length + 2))).set i none = t := by
    rw [List.set_set]
    have := set_getD_self t i none
    rwa [hnone] at this
  have hempty : slotAt t (i : Int) = none := by
    rw [slotAt_natCast]
    exact hnone
  unfold meld_close
  rw [st3_table, if_pos hok]
  simp only [filetable_placeat, st3_table, hslot, Int.toNat_ofNat, Int.ofNat_zero_le, if_true,
    st3_with_table, hback, openfile_decref, ofGet_st3_2, ofSet_st3_2, hempty, set_getD_self]
  have := set_getD_self t i none
  rw [hnone] at this
  simp [this]

/-! ## A complete run of `sys_meld` -/

theorem lookup_ne_of_some_none (fs : List (Path × VFile)) (p q : Path) (v : VFile)
    (hp : fsLookup fs p = some v) (hq : fsLookup fs q = none) : q ≠ p := by
  rintro rfl
  rw [hp] at hq
  cases hq

/-- Whenever the three path copies and the three opens succeed, the table has three
empty slots, both inputs read without error and their sizes add up to less than
2^31, `sys_meld` runs to its closing part and returns `ENOENT`, in the state
described here: file 3 holds `meldStream` for `rounds` iterations, its descriptor has
been detached and its openfile released, and the descriptors of file 1 and file 2
are still installed in the slots `i1`, `i2` they were placed in. -/
theorem sys_meld_run (occ : Bool) (k : Kernel) (pn1 pn2 pn3 : UserStr) (buf1 buf2 : Buf4)
    (p1 p2 p3 : Path) (d1 d2 : List Byte)
    (hp1 : copyinstr pn1 PATH_MAX = .ok p1) (hp2 : copyinstr pn2 PATH_MAX = .ok p2)
    (hp3 : copyinstr pn3 PATH_MAX = .ok p3)
    (h1 : fsLookup k.files p1 = some ⟨d1, false⟩) (h2 : fsLookup k.files p2 = some ⟨d2, false⟩)
    (h3 : fsLookup k.files p3 = none) (hfree : 3 ≤ k.table.count none)
    (hsize : d1.length + d2.length < 2 ^ 31) :
    ∃ i1 i2,
      firstFree k.table = some i1 ∧
      firstFree (k.table.set i1 (some k.ofs.length)) = some i2 ∧
      sys_meld occ k pn1 pn2 pn3 buf1 buf2
        = .ret (.err .ENOENT) (some (toInt32 ((8 * rounds d1 d2 : Nat) : Int))) []
            (st3 k (fsStore k.files p3 ⟨meldStream d1 d2 (rounds d1 d2) 0 0 buf1 buf2, false⟩)
              ((k.table.set i1 (some k.ofs.length)).set i2 (some (k.ofs.length + 1)))
              ⟨p1, O_RDWR, meldOff d1 (rounds d1 d2) 0, 1, false⟩
              ⟨p2, O_RDWR, meldOff d2 (rounds d1 d2) 0, 1, false⟩
              ⟨p3, O_WRONLY, 8 * rounds d1 d2, 0, false⟩) := by
  have h13 : p3 ≠ p1 := lookup_ne_of_some_none _ _ _ _ h1 h3
  have h23 : p3 ≠ p2 := lookup_ne_of_some_none _ _ _ _ h2 h3
  obtain ⟨i1, hi1⟩ := firstFree_of_count k.table (by omega)
  have hc1 := count_set_firstFree k.table i1 k.ofs.length hi1
  obtain ⟨i2, hi2⟩ := firstFree_of_count (k.table.set i1 (some k.ofs.length)) (by omega)
  have hc2 := count_set_firstFree _ i2 (k.ofs.length + 1) hi2
  obtain ⟨i3, hi3⟩ := firstFree_of_count
    ((k.table.set i1 (some k.ofs.length)).set i2 (some (k.ofs.length + 1))) (by omega)
  obtain ⟨ho1, ho2, ho3⟩ := meld_opens k p1 p2 p3 _ _ 0o664 h1 h2 h3
  have hl1 : fsLookup (fsStore k.files p3 ⟨[], false⟩) p1 = some ⟨d1, false⟩ := by
    rw [fsLookup_fsStore_other _ _ _ _ h13]; exact h1
  have hl2 : fsLookup (fsStore k.files p3 ⟨[], false⟩) p2 = some ⟨d2, false⟩ := by
    rw [fsLookup_fsStore_other _ _ _ _ h23]; exact h2
  have hl3 : fsLookup (fsStore k.files p3 ⟨[], false⟩) p3 = some ⟨[], false⟩ :=
    fsLookup_fsStore_same _ _ _
  have hs1 : toInt32 (d1.length : Int) = (d1.length : Int) := toInt32_of_lt _ (by omega)
  have hs2 : toInt32 ((d1.length : Int) + (d2.length : Int))
      = ((d1.length + d2.length : Nat) : Int) := by
    have := toInt32_of_lt (d1.length + d2.length) hsize
    push_cast at this ⊢
    exact this
  have hhalf : Int.tdiv ((d1.length + d2.length : Nat) : Int) 2
      = ((budget d1 d2 : Nat) : Int) := rfl
  obtain ⟨bufa, bufb, hrun⟩ := meld_loop_st3 k
    (((k.table.set i1 (some k.ofs.length)).set i2 (some (k.ofs.length + 1))).set i3
      (some (k.ofs.length + 2)))
    p1 p2 p3 O_RDWR O_RDWR O_WRONLY d1 d2 ((budget d1 d2 : Nat) : Int) h13 h23
    (rounds d1 d2) (budget d1 d2) (fsStore k.files p3 ⟨[], false⟩) [] 0 0 buf1 buf2 0
    hl1 hl2 hl3
    (by unfold rounds; omega) (by unfold rounds; omega) (by intro _; unfold rounds; omega)
  simp only [List.length_nil, List.nil_append, Nat.zero_add, fsStore_fsStore] at hrun
  refine ⟨i1, i2, hi1, hi2, ?_⟩
  unfold sys_meld
  simp only [hp1, hp2, hp3, ho1, ho2, ho3, filetable_place_st3 _ _ _ _ _ _ _ _ hi1,
    filetable_place_st3 _ _ _ _ _ _ _ _ hi2, filetable_place_st3 _ _ _ _ _ _ _ _ hi3,
    VOP_STAT, st3_files, ofGet_st3_0, ofGet_st3_1, ofGet_st3_2, hl1, hl2, hs1, hs2, hhalf,
    Int.toNat_ofNat, hrun]
  exact meld_close_st3 occ k _ _ _ _ p3 O_WRONLY _ i3 _ hi3

/-! ## The stream written by `sys_meld` -/

theorem firstFree_unique (t : List (Option Nat)) (i j : Nat) (h : firstFree t = some i)
    (h2 : firstFree t = some j) : i = j := by
  rw [h] at h2
  exact Option.some.inj h2

theorem sys_meld_testKernel (occ : Bool) :
    sys_meld occ testKernel (.str "testfile01") (.str "testfile02") (.str "testfile03")
        zBuf zBuf
      = .ret (.err .ENOENT) (some 24) [] meldedKernel := by
  obtain ⟨i1, i2, hi1, hi2, hrun⟩ :=
    sys_meld_run occ testKernel (.str "testfile01") (.str "testfile02") (.str "testfile03")
      zBuf zBuf "testfile01" "testfile02" "testfile03" "AAAABBBBCCCC".toList
      "ddddeeeeffff".toList rfl rfl rfl (by decide) (by decide)
      (by decide) (by decide) (by decide)
  obtain rfl := firstFree_unique _ i1 0 hi1 (by decide)
  obtain rfl := firstFree_unique _ i2 1 hi2 (by decide)
  rw [hrun]
  decide

/-- Claim C2, the code on the test files: the three opens, the three placements and
every read and write succeed, `*retval` receives 24, the final offset of file 3, but
`sys_meld` returns `ENOENT`, not 0, whichever reading of `filetable_okfd` is taken:
the second `filetable_placeat` at the same `fd` finds the slot already empty. -/
theorem sys_meld_success_returns_ENOENT :
    outStatus (sys_meld false testKernel (.str "testfile01") (.str "testfile02")
        (.str "testfile03") zBuf zBuf) = some (.err .ENOENT) ∧
    outStatus (sys_meld true testKernel (.str "testfile01") (.str "testfile02")
        (.str "testfile03") zBuf zBuf) = some (.err .ENOENT) ∧
    outStatus (sys_meld false testKernel (.str "testfile01") (.str "testfile02")
        (.str "testfile03") zBuf zBuf) ≠ some .ok ∧
    outRetval (sys_meld false testKernel (.str "testfile01") (.str "testfile02")
        (.str "testfile03") zBuf zBuf) = some 24 := by
  rw [sys_meld_testKernel false, sys_meld_testKernel true]
  decide

/-- Claim C3, the code on the test files: from an empty table, `sys_meld` installs
its descriptors in slots 0, 1, 2 and finishes the loop; when it returns, slots 0 and
1 still hold file 1 and file 2, whose reference counts are still 1; only file 3 has
been detached and released (reference count 0). -/
theorem sys_meld_leaves_two_descriptors :
    testKernel.table = [none, none, none, none] ∧
    outTable (sys_meld false testKernel (.str "testfile01") (.str "testfile02")
        (.str "testfile03") zBuf zBuf) = some [some 0, some 1, none, none] ∧
    (outOpenFile (sys_meld false testKernel (.str "testfile01") (.str "testfile02")
        (.str "testfile03") zBuf zBuf) 0).map (·.of_refcount) = some 1 ∧
    (outOpenFile (sys_meld false testKernel (.str "testfile01") (.str "testfile02")
        (.str "testfile03") zBuf zBuf) 1).map (·.of_refcount) = some 1 ∧
    (outOpenFile (sys_meld false testKernel (.str "testfile01") (.str "testfile02")
        (.str "testfile03") zBuf zBuf) 2).map (·.of_refcount) = some 0 := by
  rw [sys_meld_testKernel false]
  decide

/-- Claim C4, the code on three failing calls. With only two empty slots the third
placement fails: `sys_meld` returns `EMFILE`, the descriptors of file 1 and file 2
stay in the table and the newly created, empty `path3` stays in the file system.
With a failing read of file 1 it returns the I/O error code: all three descriptors stay in the
table, `path3` stays, and the offset lock of file 1 is still held. With the second
input missing it returns `ENOENT`, the table is unchanged and no `path3` exists. -/
theorem sys_meld_failure_leftovers :
    (twoSlotKernel.table = [none, none] ∧
      fsLookup twoSlotKernel.files "testfile03" = none ∧
      outStatus (sys_meld false twoSlotKernel (.str "testfile01") (.str "testfile02")
        (.str "testfile03") zBuf zBuf) = some (.err .EMFILE) ∧
      outTable (sys_meld false twoSlotKernel (.str "testfile01") (.str "testfile02")
        (.str "testfile03") zBuf zBuf) = some [some 0, some 1] ∧
      outFile (sys_meld false twoSlotKernel (.str "testfile01") (.str "testfile02")
        (.str "testfile03") zBuf zBuf) "testfile03" = some []) ∧
    (faultyInputKernel.table = [none, none, none, none] ∧
      fsLookup faultyInputKernel.files "testfile03" = none ∧
      outStatus (sys_meld false faultyInputKernel (.str "testfile01") (.str "testfile02")
        (.str "testfile03") zBuf zBuf) = some (.err .EIOERR) ∧
      outTable (sys_meld false faultyInputKernel (.str "testfile01") (.str "testfile02")
        (.str "testfile03") zBuf zBuf) = some [some 0, some 1, some 2, none] ∧
      outFile (sys_meld false faultyInputKernel (.str "testfile01") (.str "testfile02")
        (.str "testfile03") zBuf zBuf) "testfile03" = some [] ∧
      (outOpenFile (sys_meld false faultyInputKernel (.str "testfile01") (.str "testfile02")
        (.str "testfile03") zBuf zBuf) 0).map (·.of_offsetlock) = some true) ∧
    (outStatus (sys_meld false oneFileKernel (.str "testfile01") (.str "testfile02")
        (.str "testfile03") zBuf zBuf) = some (.err .ENOENT) ∧
      outTable (sys_meld false oneFileKernel (.str "testfile01") (.str "testfile02")
        (.str "testfile03") zBuf zBuf) = some oneFileKernel.table ∧
      outFile (sys_meld false oneFileKernel (.str "testfile01") (.str "testfile02")
        (.str "testfile03") zBuf zBuf) "testfile03" = none) := by
  decide

theorem meld_body_not_outOfFuel (k : Kernel) (file1 file2 file3 : Nat) (buf1 buf2 : Buf4) :
    meld_body k file1 file2 file3 buf1 buf2 ≠ .error .outOfFuel := by
  intro h
  unfold meld_body at h
  repeat' (first | (split at h) | (dsimp only at h; split at h))
  all_goals simp at h

theorem meld_loop_not_outOfFuel (fuel : Nat) :
    ∀ (k : Kernel) (file1 file2 file3 : Nat) (buf1 buf2 : Buf4) (count half : Int),
      half - count ≤ (fuel : Int) →
      meld_loop fuel k file1 file2 file3 buf1 buf2 count half ≠ .error .outOfFuel := by
  induction fuel with
  | zero =>
    intro k file1 file2 file3 buf1 buf2 count half h
    have hc : ¬ count < half := by omega
    rw [meld_loop.eq_def, if_neg hc]
    simp
  | succ f ih =>
    intro k file1 file2 file3 buf1 buf2 count half h
    rw [meld_loop.eq_def]
    split
    · simp only
      split
      · rename_i o hb
        intro ho
        simp only [Except.error.injEq] at ho
        subst ho
        exact meld_body_not_outOfFuel _ _ _ _ _ _ hb
      · exact ih _ _ _ _ _ _ _ _ (by push_cast at h; omega)
    · simp

theorem meld_close_not_outOfFuel (occ : Bool) (k : Kernel) (fd : Int) (rv : Option Int) :
    meld_close occ k fd rv ≠ .outOfFuel := by
  intro h
  unfold meld_close at h
  repeat' (first | (split at h) | (dsimp only at h; split at h))
  all_goals simp at h

/-- The fuel `sys_meld` gives to the loop model always suffices: no call of
`sys_meld` ends because the model ran out of fuel. -/
theorem sys_meld_fuel_suffices (occ : Bool) (k : Kernel) (pn1 pn2 pn3 : UserStr)
    (buf1 buf2 : Buf4) : sys_meld occ k pn1 pn2 pn3 buf1 buf2 ≠ .outOfFuel := by
  intro h
  unfold sys_meld at h
  repeat' (first | (split at h) | (dsimp only at h; split at h))
  all_goals first
    | simp at h
    | skip
  all_goals first
    | exact meld_close_not_outOfFuel _ _ _ _ h
    | (rename_i hloop
       subst h
       refine meld_loop_not_outOfFuel _ _ _ _ _ _ _ _ _ ?_ hloop
       simp only [Int.sub_zero]
       exact Int.self_le_toNat _)

end OsLight
